import Mathlib

/-!
Verification of the staged bulk-workflow services in scripts-ajustes
(coleta_contratos, isenta_contratos, massive_cancel, massive_desc,
reativa_contrato) against their natural-language specification.

The Python sources are shallowly embedded: JSON values become an inductive
type, Python truthiness and attribute/key access become total Lean functions
returning Except for the exceptions the interpreter would raise, the
requests/urllib3 retry machinery becomes an explicit recursion over the
sequence of statuses a remote would answer, and each service method that the
claims cite is transcribed statement by statement.
-/

namespace ScriptsAjustes

/-- Python runtime errors that the embedded code can raise. -/
inductive PErr where
  | typeErr (msg : String)
  | attrErr (msg : String)
  | keyErr (msg : String)
  | unboundLocal (name : String)
  deriving Repr, DecidableEq

/-- JSON values as decoded by response.json(), plus Python None. -/
inductive Json where
  | null : Json
  | bool (b : Bool) : Json
  | num (n : Int) : Json
  | str (s : String) : Json
  | arr (xs : List Json) : Json
  | obj (fields : List (String × Json)) : Json
  deriving Repr

namespace Json

mutual

/-- Structural equality of JSON values. -/
def beq : Json → Json → Bool
  | .null, .null => true
  | .bool a, .bool b => a == b
  | .num a, .num b => a == b
  | .str a, .str b => a == b
  | .arr xs, .arr ys => beqL xs ys
  | .obj fs, .obj gs => beqF fs gs
  | _, _ => false

def beqL : List Json → List Json → Bool
  | [], [] => true
  | x :: xs, y :: ys => beq x y && beqL xs ys
  | _, _ => false

def beqF : List (String × Json) → List (String × Json) → Bool
  | [], [] => true
  | (k, v) :: xs, (l, w) :: ys => k == l && beq v w && beqF xs ys
  | _, _ => false

end

/-- Python truthiness of a value: None, False, 0, "", [], if false. -/
def pyTruthy : Json → Bool
  | .null => false
  | .bool b => b
  | .num n => n != 0
  | .str s => s != ""
  | .arr xs => !xs.isEmpty
  | .obj fs => !fs.isEmpty

/-- Python equality restricted to the values the services compare:
numeric cross-type equality identifies True with 1 and False with 0,
every other cross-type comparison is unequal. -/
def pyEq : Json → Json → Bool
  | .null, .null => true
  | .bool a, .bool b => a == b
  | .num a, .num b => a == b
  | .bool a, .num b => (if a then (1 : Int) else 0) == b
  | .num a, .bool b => a == (if b then (1 : Int) else 0)
  | .str a, .str b => a == b
  | .arr a, .arr b => beqL a b
  | .obj a, .obj b => beqF a b
  | _, _ => false

/-- Python str() of the values that reach the string conversions used
by the services. -/
def pyStr : Json → String
  | .null => "None"
  | .bool b => if b then "True" else "False"
  | .num n => toString n
  | .str s => s
  | .arr _ => "[...]"
  | .obj _ => "..."

/-- d.get(k): None when the key is absent; AttributeError when the
receiver is not a dict. -/
def pyGet : Json → String → Except PErr Json
  | .obj fs, k => .ok ((fs.lookup k).getD .null)
  | _, _ => .error (.attrErr "object has no attribute get")

/-- d.get(k, default): like pyGet but with an explicit default. -/
def pyGetD : Json → String → Json → Except PErr Json
  | .obj fs, k, d => .ok ((fs.lookup k).getD d)
  | _, _, _ => .error (.attrErr "object has no attribute get")

/-- d[k]: KeyError when the key is absent; TypeError otherwise. -/
def pySubscript : Json → String → Except PErr Json
  | .obj fs, k =>
    match fs.lookup k with
    | some v => .ok v
    | none => .error (.keyErr k)
  | _, _ => .error (.typeErr "object is not subscriptable")

/-- k in d. -/
def pyIn (k : String) : Json → Bool
  | .obj fs => (fs.lookup k).isSome
  | _ => false

/-- d[k] = v on a dict (replacing an existing binding, else appending). -/
def setField (k : String) (v : Json) : List (String × Json) → List (String × Json)
  | [] => [(k, v)]
  | (k', v') :: rest =>
    if k' == k then (k, v) :: rest else (k', v') :: setField k v rest

/-- d[k] = v: TypeError when the receiver does not support item
assignment. -/
def pySet : Json → String → Json → Except PErr Json
  | .obj fs, k, v => .ok (.obj (setField k v fs))
  | _, _, _ => .error (.typeErr "object does not support item assignment")

/-- for x in v: iterating a list yields its items, iterating a dict
yields its keys; other values raise TypeError. -/
def pyIter : Json → Except PErr (List Json)
  | .arr xs => .ok xs
  | .obj fs => .ok (fs.map fun p => .str p.1)
  | _ => .error (.typeErr "object is not iterable")

end Json

/-- Truthiness of an Optional value (the type _make_request returns):
None is falsy, otherwise Python truthiness of the JSON value. -/
def optTruthy : Option Json → Bool
  | none => false
  | some j => j.pyTruthy

/-- for x in v where v is Optional: iterating None raises TypeError. -/
def pyIterOpt : Option Json → Except PErr (List Json)
  | none => .error (.typeErr "NoneType object is not iterable")
  | some j => j.pyIter

/-! ## Resilient HTTP client

Every service builds a requests.Session, configures
Retry(total=3, backoff_factor=0.5, status_forcelist=[500, 502, 503, 504])
on an HTTPAdapter, and mounts that adapter on exactly one scheme
("http://" in massive_cancel, massive_desc, isenta_contratos and
reativa_contrato; "https://" in coleta_contratos).  A URL whose scheme
is not the mounted one is served by the default session adapter, which
performs zero retries.

The remote is modelled as the list of statuses it would answer on
successive attempts; an exhausted list is a connection failure. -/

/-- Outcome of the transport layer for one request. -/
inductive ReqErr where
  | retriesExhausted
  | connectionFailed
  | httpStatus (code : Nat)
  deriving Repr, DecidableEq

def statusForcelist : List Nat := [500, 502, 503, 504]

/-- urllib3 Retry with the given remaining retry budget: a forcelisted
status consumes one retry; a forcelisted status with the budget spent
raises; any other status is returned.  The second component counts the
attempts that reached the remote. -/
def sendWithRetry : Nat → List Nat → Except ReqErr Nat × Nat
  | _, [] => (.error .connectionFailed, 0)
  | budget, s :: rest =>
    if s ∈ statusForcelist then
      match budget with
      | 0 => (.error .retriesExhausted, 1)
      | b + 1 =>
        let r := sendWithRetry b rest
        (r.1, r.2 + 1)
    else (.ok s, 1)

/-- The retry budget requests applies to a URL: 3 for the scheme the
retry adapter was mounted on, 0 (the session default) otherwise. -/
def retryBudget (mountedScheme : String) (url : String) : Nat :=
  if mountedScheme == "http" && url.take 7 == "http://" then 3
  else if mountedScheme == "https" && url.take 8 == "https://" then 3
  else 0

/-- _make_request: send with the scheme-dependent retry budget, then
raise_for_status (4xx/5xx ⇒ RequestException, caught, returning None),
then return an empty dict on 204 and the decoded body otherwise.
Returns the value the method returns together with the number of
attempts that reached the remote. -/
def makeRequest (mountedScheme url : String) (responses : List Nat)
    (bodyOf : Nat → Json) : Option Json × Nat :=
  match sendWithRetry (retryBudget mountedScheme url) responses with
  | (.error _, att) => (none, att)
  | (.ok st, att) =>
    if 400 ≤ st then (none, att)
    else if st == 204 then (some (.obj []), att)
    else (some (bodyOf st), att)

/-! ## MassiveCancel._process_contract

One input row carries the EC (client code) and CONTRATO (contract code)
columns.  The remote is a CancelEnv: what _make_request would return for
each of the four GET endpoints and for each PUT (as a function of the
payload sent).  Each run is paired with the trace of remote calls it
performed, which is what the short-circuit and fan-out claims quantify
over. -/

structure Row where
  ec : Int
  contrato : Int
  deriving Repr, DecidableEq

/-- The remote calls massive_cancel can make, in pipeline order. -/
inductive CCall where
  | getContrato
  | getContratoEquip
  | getNeg
  | getProtocol
  | putContrato
  | putContratoEquip
  | putNeg
  | putProtocol
  deriving Repr, DecidableEq

/-- Behaviour of the remote seen through _make_request: a GET endpoint
answers a fixed Optional value, a PUT endpoint answers as a function of
the payload sent (None models a failed request). -/
structure CancelEnv where
  getContrato : Option Json
  getContratoEquip : Option Json
  getNeg : Option Json
  getProtocol : Option Json
  putContrato : Json → Option Json
  putContratoEquip : Json → Option Json
  putNeg : Json → Option Json
  putProtocol : Json → Option Json

/-- Fields of a dict with a .get default. -/
def fieldD (fs : List (String × Json)) (k : String) (d : Json) : Json :=
  (fs.lookup k).getD d

/-- contrato.get(k) if k in contrato and contrato[k] else None. -/
def condField (fs : List (String × Json)) (k : String) : Json :=
  match fs.lookup k with
  | some v => if v.pyTruthy then v else .null
  | none => .null

/-- The match loop of lines 148-168: first item whose cdContrato equals
the contract key (with break); a non-dict item raises AttributeError at
contrato.get.  Returns the fields of the matched item, none when the loop
never matched (leaving new_contrato unbound). -/
def findContratoFields (key : String) : List Json → Except PErr (Option (List (String × Json)))
  | [] => .ok none
  | .obj fs :: rest =>
    if Json.pyStr (fieldD fs "cdContrato" .null) == key then .ok (some fs)
    else findContratoFields key rest
  | _ :: _ => .error (.attrErr "object has no attribute get")

/-- The new_contrato payload built from the matched contract record. -/
def buildNewContrato (row : Row) (data : Int) (fs : List (String × Json)) : Json :=
  .obj [
    ("cdContrato", .num row.contrato),
    ("cdCliente", .num row.ec),
    ("dtSolicitacao", fieldD fs "dtSolicitacao" (.str "")),
    ("dtInicio", fieldD fs "dtInicio" (.str "")),
    ("dtFim", .num data),
    ("dtSolicitacaoCancelamento", .num data),
    ("dsSistemaCancelamento", .str "Sistema"),
    ("dsUsuárioCancelamento", .str "Sistema"),
    ("dsSistemaSolicitacao", fieldD fs "dsSistemaSolicitacao" (.str "")),
    ("dsUsuarioSolicitacao", fieldD fs "dsUsuarioSolicitacao" (.str "")),
    ("cdStatus", .num 5),
    ("dsDetalheChamado", condField fs "dsDetalheChamado"),
    ("cdTipoEquipamento", fieldD fs "cdTipoEquipamento" (.str "")),
    ("cdContratante", fieldD fs "cdContratante" (.str "")),
    ("cdSolicitacaoSistemaExterno", condField fs "cdSolicitacaoSistemaExterno"),
    ("cdExternoSistemaCancelamento", .num 15)]

/-- The equipment loop of lines 171-184: first item that is active and
has no end date (with break); none when no item qualifies (leaving
new_equip unbound). -/
def findEquipFields : List Json → Except PErr (Option (List (String × Json)))
  | [] => .ok none
  | .obj fs :: rest =>
    if (fieldD fs "ativo" .null).pyTruthy && !(fieldD fs "dataFim" .null).pyTruthy then
      .ok (some fs)
    else findEquipFields rest
  | _ :: _ => .error (.attrErr "object has no attribute get")

/-- The new_equip payload built from the active equipment record. -/
def buildNewEquip (row : Row) (data : Int) (fs : List (String × Json)) : Json :=
  .obj [
    ("cdContratoEquip", fieldD fs "cdContratoEquip" .null),
    ("cdContrato", fieldD fs "cdContrato" (.num row.contrato)),
    ("cdModelo", fieldD fs "cdModelo" (.str "")),
    ("modelo", fieldD fs "modelo" (.str "")),
    ("nrSerie", fieldD fs "nrSerie" (.str "")),
    ("nrPatrimonio", fieldD fs "nrPatrimonio" (.str "")),
    ("dataInicio", fieldD fs "dataInicio" (.str "")),
    ("dataFim", .num data),
    ("ativo", .bool false)]

/-- Lines 187-191: keep every negotiation whose dtFimNegociacao is None,
falsy or the empty string, stamping dtFimNegociacao with the run
timestamp. -/
def buildNegList (data : Int) : List Json → Except PErr (List Json)
  | [] => .ok []
  | it :: rest => do
    let v ← it.pyGet "dtFimNegociacao"
    if Json.beq v .null || !v.pyTruthy || v.pyEq (.str "") then
      let it' ← it.pySet "dtFimNegociacao" (.num data)
      let tl ← buildNegList data rest
      .ok (it' :: tl)
    else buildNegList data rest

/-- Lines 194-200: keep every protocol whose cdStatus equals 1 or whose
cdStatus item is falsy (the second disjunct subscripts the dict and so
raises KeyError when the key is absent), closing it with status 2 and
the run timestamp. -/
def buildProtocolList (data : Int) : List Json → Except PErr (List Json)
  | [] => .ok []
  | it :: rest => do
    let keep ←
      if (← it.pyGet "cdStatus").pyEq (.num 1) then pure true
      else do
        let w ← it.pySubscript "cdStatus"
        pure (!w.pyTruthy)
    if keep then
      let a ← it.pySet "cdStatus" (.num 2)
      let b ← a.pySet "dtFechamento" (.num data)
      let c ← b.pySet "dtUltimaExecucao" (.num data)
      let tl ← buildProtocolList data rest
      .ok (c :: tl)
    else buildProtocolList data rest

/-- One output row of massive_cancel: EC, CONTRATO and the four stage
status cells. -/
def sRow (r : Row) (c1 c2 c3 c4 : String) : List String :=
  [toString r.ec, toString r.contrato, c1, c2, c3, c4]

/-- MassiveCancel._process_contract on a single row: the four gating
GETs in order (each falsy response short-circuits with the stage cells
observed in the source), then the match/filter loops, then the PUTs;
reading new_contrato or new_equip when the corresponding loop never
matched raises UnboundLocalError exactly where the source reads the
unset variable.  Paired with the trace of remote calls performed. -/
def mcProcessRow (row : Row) (env : CancelEnv) (data : Int) :
    Except PErr (List String) × List CCall :=
  let t1 := [CCall.getContrato]
  if !optTruthy env.getContrato then
    (.ok (sRow row "Não localizado." "---" "---" "---"), t1)
  else
    let t2 := t1 ++ [CCall.getContratoEquip]
    if !optTruthy env.getContratoEquip then
      (.ok (sRow row "Localizado" "Não localizado" "---" "---"), t2)
    else
      let t3 := t2 ++ [CCall.getNeg]
      if !optTruthy env.getNeg then
        (.ok (sRow row "Localizado" "Localizado" "Não localizado" "---"), t3)
      else
        let t4 := t3 ++ [CCall.getProtocol]
        if !optTruthy env.getProtocol then
          (.ok (sRow row "Localizado" "Localizado" "Localizado" "Não localizado"), t4)
        else
          match (do
            let items1 ← pyIterOpt env.getContrato
            let mc ← findContratoFields (toString row.contrato) items1
            let items2 ← pyIterOpt env.getContratoEquip
            let me ← findEquipFields items2
            let items3 ← pyIterOpt env.getNeg
            let negs ← buildNegList data items3
            let items4 ← pyIterOpt env.getProtocol
            let protos ← buildProtocolList data items4
            pure (mc, me, negs, protos) : Except PErr _) with
          | .error e => (.error e, t4)
          | .ok (mc, me, negs, protos) =>
            match mc with
            | none => (.error (.unboundLocal "new_contrato"), t4)
            | some fsc =>
              let t5 := t4 ++ [CCall.putContrato]
              if !optTruthy (env.putContrato (buildNewContrato row data fsc)) then
                (.ok (sRow row "Erro ao atualizar" "---" "---" "---"), t5)
              else
                match me with
                | none => (.error (.unboundLocal "new_equip"), t5)
                | some fse =>
                  let t6 := t5 ++ [CCall.putContratoEquip]
                  if !optTruthy (env.putContratoEquip (buildNewEquip row data fse)) then
                    (.ok (sRow row "Atualizado" "Erro ao atualizar" "---" "---"), t6)
                  else
                    let t7 := t6 ++ negs.map (fun _ => CCall.putNeg)
                    let t8 := t7 ++ protos.map (fun _ => CCall.putProtocol)
                    (.ok (sRow row "Atualizado" "Atualizado" "Atualizado" "Atualizado"), t8)

/-- What process_sync actually hands to _process_contract: either one
row, or the whole df.itertuples(index=False) iterator. -/
inductive RowArg where
  | row (r : Row)
  | iter (rs : List Row)

/-- _process_contract as called: getattr(row, "EC") on the iterator
object raises AttributeError before the first request is issued. -/
def mcProcessContract : RowArg → CancelEnv → Int → Except PErr (List String) × List CCall
  | .row r, env, data => mcProcessRow r env data
  | .iter _, _, _ => (.error (.attrErr "generator object has no attribute EC"), [])

/-- pandas Series.unique().tolist(): first-seen-order deduplication. -/
def pandasUnique (xs : List Int) : List Int :=
  xs.foldl (fun acc x => if x ∈ acc then acc else acc ++ [x]) []

/-- MassiveCancel.process_sync, lines 234-246: reads the deduplicated
contract keys, then submits a SINGLE task whose argument is the whole
row iterator; its AttributeError is caught by the except branch, which
only logs, so nothing is ever appended to self.contratos. -/
def mcProcessSync (df : List Row) (env : CancelEnv) (data : Int) : List String :=
  match (mcProcessContract (.iter df) env data).1 with
  | .ok cells => cells
  | .error _ => []

/-- The unique keys process_sync reports having read. -/
def mcUniqueKeys (df : List Row) : List Int :=
  pandasUnique (df.map Row.contrato)

/-! ## Result sink (save_result / save_results)

Each service declares its column schema and applies it only when the
first accumulated row happens to have the same length; otherwise the
DataFrame is built bare, without the declared header and without any
padding. -/

inductive Saved where
  | noData
  | withSchema (cols : List String) (rows : List (List String))
  | bare (rows : List (List String))
  deriving Repr, DecidableEq

/-- The schema decision shared by every save_result in the repository:
nothing to save, schema applied when the first row length matches the
declared column count, bare DataFrame otherwise. -/
def saveDecision (colunas : List String) (rows : List (List String)) : Saved :=
  match rows with
  | [] => .noData
  | r0 :: _ => if r0.length == colunas.length then .withSchema colunas rows else .bare rows

def mcColunas : List String :=
  ["EC", "CONTRATO", "STATUS_CONTRATO", "STATUS_EQUIP", "STATUS_NEGOCIACAO", "STATUS_PROTOCOLO"]

/-- MassiveCancel.save_result schema decision, lines 293-303. -/
def mcSaveResult (rows : List (List String)) : Saved :=
  saveDecision mcColunas rows

def coletaColunas : List String :=
  ["EC", "CNPJ", "CLIENTE", "CONTRATO", "STATUS", "SERIAL",
   "PATRIMONIO", "MODELO", "NEGOCIACAO", "VIGENCIA", "INICIO", "FIM"]

/-- ColetaContratos.save_results schema decision, lines 337-351. -/
def coletaSaveResults (rows : List (List String)) : Saved :=
  saveDecision coletaColunas rows

/-! ## IsentaContratos

Key extraction (process_sync, lines 154-164): the polars primary path
takes df.getColumn CONTRATO to_list with no deduplication; the pandas
fallback (and the explicit pandas path) deduplicates with unique(). -/

def isentaLoadKeysPolars (col : List Int) : List Int := col

def isentaLoadKeysPandas (col : List Int) : List Int := pandasUnique col

/-- ColetaContratos key extraction (process_sync, lines 260-271): both
the polars and the pandas path call unique(); only multiplicity is
modelled, the polars path does not guarantee order. -/
def coletaLoadKeysPolars (col : List Int) : List Int := pandasUnique col

def coletaLoadKeysPandas (col : List Int) : List Int := pandasUnique col

/-- The remote calls isenta_contratos makes per contract. -/
inductive ICall where
  | getNeg
  | putNeg
  deriving Repr, DecidableEq

/-- The fan-out loop of IsentaContratos._process_contract (lines
129-139): every fetched negotiation gets vlNegociacao overwritten and a
PUT issued; a falsy PUT response appends a failure row, and (the source
has no else) a success row is appended unconditionally afterwards; the
loop never stops early.  putResp gives the response of the i-th PUT. -/
def isentaLoop (contract : Int) (valor : Json) (putResp : Nat → Option Json) :
    Nat → List Json → Except PErr (List (List Json)) × List ICall
  | _, [] => (.ok [], [])
  | i, it :: rest =>
    match it.pySet "vlNegociacao" valor with
    | .error e => (.error e, [])
    | .ok it' =>
      let rsp := putResp i
      match it'.pyGet "cdContratoNegociacao", it'.pyGet "vlNegociacao" with
      | .ok v1, .ok v2 =>
        let failRows : List (List Json) :=
          if !optTruthy rsp then [[.num contract, v1, v2, .str "Não alterado."]]
          else []
        let okRow : List Json := [.num contract, v1, v2, .str "Alterado."]
        let tail := isentaLoop contract valor putResp (i + 1) rest
        match tail.1 with
        | .error e => (.error e, ICall.putNeg :: tail.2)
        | .ok tl => (.ok (failRows ++ [okRow] ++ tl), ICall.putNeg :: tail.2)
      | .error e, _ => (.error e, [ICall.putNeg])
      | _, .error e => (.error e, [ICall.putNeg])

/-- IsentaContratos._process_contract (lines 108-141): one GET of the
negotiations of the contract; a falsy, non-list or empty response appends a
not-found row but does NOT return, falling through to the loop (so a
None response then raises TypeError when iterated). -/
def isentaProcessContract (contract : Int) (valor : Json) (resp : Option Json)
    (putResp : Nat → Option Json) : Except PErr (List (List Json)) × List ICall :=
  let isList := match resp with | some (.arr _) => true | _ => false
  let emptyList := match resp with | some (.arr xs) => xs.isEmpty | _ => false
  let notFound : List (List Json) :=
    if !optTruthy resp || !isList || emptyList then
      [[.num contract, .str "Não localizado negociações.",
        .str "Não alterado.", .str "Não alterado."]]
    else []
  let t0 := [ICall.getNeg]
  match pyIterOpt resp with
  | .error e => (.error e, t0)
  | .ok items =>
    let loop := isentaLoop contract valor putResp 0 items
    match loop.1 with
    | .error e => (.error e, t0 ++ loop.2)
    | .ok rows => (.ok (notFound ++ rows), t0 ++ loop.2)

/-! ## ReativaContrato._process_contract -/

structure RRow where
  ec : Int
  contrato : Int
  serial : Int
  deriving Repr, DecidableEq

inductive RCall where
  | getContrato
  | getEquip
  | putContrato
  | putEquip
  deriving Repr, DecidableEq

structure ReativaEnv where
  getContrato : Option Json
  getEquip : Option Json
  putContrato : Json → Option Json
  putEquip : Json → Option Json

/-- The contract match loop of reativa (lines 131-146): no break, so the
LAST matching item determines new_contrato; the check_found_contrato
flag (initialised False) becomes true when any item matched. -/
def reativaFindContrato (key : String) : List Json → Except PErr (Option (List (String × Json)))
  | [] => .ok none
  | .obj fs :: rest =>
    let cur := if Json.pyStr (fieldD fs "cdContrato" (.str "")) == key then some fs else none
    match reativaFindContrato key rest with
    | .error e => .error e
    | .ok (some r) => .ok (some r)
    | .ok none => .ok cur
  | _ :: _ => .error (.attrErr "object has no attribute get")

/-- The equipment match loop of reativa (lines 155-167): no break, last
match wins; the check_found_equip flag is only ANNOTATED on line 154
(check_found_equip: False), never assigned, so when no item matches the
later read raises NameError (modelled by the caller). -/
def reativaFindEquip (key : String) : List Json → Except PErr (Option (List (String × Json)))
  | [] => .ok none
  | .obj fs :: rest =>
    let cur := if Json.pyStr (fieldD fs "nrSerie" (.str "")) == key then some fs else none
    match reativaFindEquip key rest with
    | .error e => .error e
    | .ok (some r) => .ok (some r)
    | .ok none => .ok cur
  | _ :: _ => .error (.attrErr "object has no attribute get")

def reativaNewContrato (row : RRow) (fs : List (String × Json)) : Json :=
  .obj [
    ("cdContrato", .num row.contrato),
    ("cdCliente", .num row.ec),
    ("dtSolicitacao", fieldD fs "dtSolicitacao" (.str "")),
    ("dtInicio", fieldD fs "dtInicio" (.str "")),
    ("dsSistemaSolicitacao", fieldD fs "dsSistemaSolicitacao" (.str "")),
    ("dsUsuarioSolicitacao", fieldD fs "dsUsuarioSolicitacao" (.str "")),
    ("cdStatus", .num 2),
    ("dsDetalheChamado", condField fs "dsDetalheChamado"),
    ("cdTipoEquipamento", fieldD fs "cdTipoEquipamento" (.str "")),
    ("cdContratante", fieldD fs "cdContratante" (.str "")),
    ("cdSolicitacaoSistemaExterno", condField fs "cdSolicitacaoSistemaExterno")]

def reativaNewEquip (row : RRow) (fs : List (String × Json)) : Json :=
  .obj [
    ("cdContratoEquip", fieldD fs "cdContratoEquip" .null),
    ("cdContrato", fieldD fs "cdContrato" (.num row.contrato)),
    ("cdModelo", fieldD fs "cdModelo" (.str "")),
    ("modelo", fieldD fs "modelo" (.str "")),
    ("nrSerie", fieldD fs "nrSerie" (.str "")),
    ("nrPatrimonio", fieldD fs "nrPatrimonio" (.str "")),
    ("dataInicio", fieldD fs "dataInicio" (.str "")),
    ("ativo", .bool true)]

def rRow (r : RRow) (c1 c2 c3 : String) : List String :=
  [toString r.ec, toString r.contrato, toString r.serial, c1, c2, c3]

/-- ReativaContrato._process_contract (lines 110-193): BOTH structural
GETs are issued unconditionally (lines 121-122) before the combined
not-found check; then the two match loops, the possible NameError on
the never-assigned check_found_equip, and the two PUTs. -/
def reativaProcessRow (row : RRow) (env : ReativaEnv) :
    Except PErr (List String) × List RCall :=
  let t2 := [RCall.getContrato, RCall.getEquip]
  if !optTruthy env.getContrato || !optTruthy env.getEquip then
    (.ok (rRow row "n" "---" "---"), t2)
  else
    match (do
      let items1 ← pyIterOpt env.getContrato
      let mc ← reativaFindContrato (toString row.contrato) items1
      pure mc : Except PErr _) with
    | .error e => (.error e, t2)
    | .ok none => (.ok (rRow row "y" "nok" "---"), t2)
    | .ok (some fsc) =>
      match (do
        let items2 ← pyIterOpt env.getEquip
        let me ← reativaFindEquip (toString row.serial) items2
        pure me : Except PErr _) with
      | .error e => (.error e, t2)
      | .ok meq =>
        match meq with
        | none => (.error (.unboundLocal "check_found_equip"), t2)
        | some fse =>
          let t3 := t2 ++ [RCall.putContrato]
          if !optTruthy (env.putContrato (reativaNewContrato row fsc)) then
            (.ok (rRow row "y" "nok" "nok"), t3)
          else
            let t4 := t3 ++ [RCall.putEquip]
            if !optTruthy (env.putEquip (reativaNewEquip row fse)) then
              (.ok (rRow row "y" "---" "nok"), t4)
            else
              (.ok (rRow row "y" "ok" "ok"), t4)

/-! ## MassiveDesc._process_contract -/

/-- len() of the values a response can be. -/
def pyLen : Json → Except PErr Nat
  | .arr xs => .ok xs.length
  | .obj fs => .ok fs.length
  | .str s => .ok s.length
  | _ => .error (.typeErr "object has no len")

/-- response [contract, "Solicitado cancelamento."] on line 127
subscripts the response with a tuple: KeyError on a dict (the tuple is
never a key), TypeError on anything else. -/
def pyTupleSubscript : Json → Except PErr Json
  | .obj _ => .error (.keyErr "tuple key")
  | _ => .error (.typeErr "indices must be integers")

/-- MassiveDesc._process_contract (lines 104-127) given the value
_make_request returned for the single PUT: a falsy or empty response is
reported as a cancellation error; the success branch is the broken
subscript expression and, were it to succeed, an implicit None return. -/
def mdProcessContract (contract : Int) (resp : Option Json) :
    Except PErr (Option (List Json)) :=
  let errRow : List Json := [.num contract, .str "Erro ao solicitar cancelamento."]
  match resp with
  | none => .ok (some errRow)
  | some j =>
    if !j.pyTruthy then .ok (some errRow)
    else
      match pyLen j with
      | .error e => .error e
      | .ok n =>
        if n ≤ 0 then .ok (some errRow)
        else
          match pyTupleSubscript j with
          | .error e => .error e
          | .ok _ => .ok none

/-! ## ColetaContratos credential cache

self._token_expiry is set on line 120 to datetime.now().timestamp() +
expires_in — a float — while line 93 compares datetime.now() (a
datetime) against it with <.  The two representations are kept apart so
the comparison can raise exactly where Python does. -/

inductive TimeV where
  | dt (t : Int)
  | fl (t : Int)
  deriving Repr, DecidableEq

/-- Python < between the two time representations: comparing a datetime
with a float raises TypeError. -/
def timeLt : TimeV → TimeV → Except PErr Bool
  | .dt a, .dt b => .ok (decide (a < b))
  | .fl a, .fl b => .ok (decide (a < b))
  | _, _ => .error (.typeErr "< not supported between instances of datetime and float")

def tvTruthy : TimeV → Bool
  | .dt _ => true
  | .fl t => t != 0

structure TokenState where
  accessToken : Option Json
  tokenExpiry : Option TimeV
  deriving Repr

/-- datetime.now().timestamp() + expires_in: TypeError unless
expires_in is numeric. -/
def addExpiry (now : Int) : Json → Except PErr TimeV
  | .num n => .ok (.fl (now + n))
  | .bool b => .ok (.fl (now + if b then 1 else 0))
  | _ => .error (.typeErr "unsupported operand for +")

/-- The credential exchange (lines 96-127 without the cache fast path):
a failed POST returns None leaving the state unchanged; a successful
one stores token_data.get access_token, then the float expiry. -/
def tokenExchange (st : TokenState) (now : Int)
    (server : Option (List (String × Json))) :
    Except PErr (Option Json) × TokenState × Nat :=
  match server with
  | none => (.ok none, st, 1)
  | some fields =>
    let tok := fields.lookup "access_token"
    let st1 : TokenState := { st with accessToken := tok }
    match addExpiry now ((fields.lookup "expires_in").getD (.num 3600)) with
    | .error e => (.error e, st1, 1)
    | .ok exp => (.ok tok, { accessToken := tok, tokenExpiry := some exp }, 1)

/-- ColetaContratos._get_access_token (lines 84-127): the cache fast
path of lines 92-94, then the exchange.  The third component counts the
calls made to the token endpoint. -/
def getAccessToken (st : TokenState) (now : Int)
    (server : Option (List (String × Json))) :
    Except PErr (Option Json) × TokenState × Nat :=
  match st.accessToken, st.tokenExpiry with
  | some tok, some exp =>
    if tok.pyTruthy && tvTruthy exp then
      match timeLt (.dt now) exp with
      | .error e => (.error e, st, 0)
      | .ok true => (.ok (some tok), st, 0)
      | .ok false => tokenExchange st now server
    else tokenExchange st now server
  | _, _ => tokenExchange st now server

/-! ## ColetaContratos.process_sync orchestration (lines 276-286)

One task per key; a task whose result raises (timeout included) is only
logged — nothing is appended for that key. -/

def coletaProcessSync (cnpjs : List Int)
    (worker : Int → Except PErr (List (List String))) : List (List String) :=
  cnpjs.foldl (fun acc c =>
    match worker c with
    | .ok rows => acc ++ rows
    | .error _ => acc) []

/-! ## Constructors (MassiveCancel, MassiveDesc, ReativaContrato)

All three end their field initialisation with
self.contratos = List[List[Any]] = [] — a chained assignment whose
second target item-assigns the typing alias List.  CPython assigns the
targets left to right: the attribute receives [], then the subscript
assignment on the alias raises TypeError (it has no item assignment),
so __init__ never completes. -/

/-- The TypeError the chained assignment raises on its second target. -/
def typingAliasItemAssign : Except PErr Unit :=
  .error (.typeErr "_SpecialGenericAlias object does not support item assignment")

/-- Path(input_path) if input_path else
Path(self.settings.get("paths").get(key, default)): an explicit truthy
path wins; otherwise the paths section of the settings is read, and
when the settings have no paths section .get on None raises
AttributeError. -/
def resolvePath (given : Option String)
    (paths : Option (List (String × String))) (key dflt : String) :
    Except PErr String :=
  match given with
  | some p =>
    if p != "" then .ok p
    else
      match paths with
      | some fs => .ok ((fs.lookup key).getD dflt)
      | none => .error (.attrErr "NoneType object has no attribute get")
  | none =>
    match paths with
    | some fs => .ok ((fs.lookup key).getD dflt)
    | none => .error (.attrErr "NoneType object has no attribute get")

/-- MassiveCancel.__init__ (lines 20-66): path resolution via
settings.get paths, session setup (pure), then the chained
assignment. -/
def mcInit (inputPath outputPath : Option String)
    (paths : Option (List (String × String))) : Except PErr Unit := do
  let _ ← resolvePath inputPath paths "input_path" "entry/massive_cancel.csv"
  let _ ← resolvePath outputPath paths "output_path" "output/massive_cancel.xlsx"
  typingAliasItemAssign

/-- MassiveDesc.__init__ (lines 20-63): same shape as MassiveCancel. -/
def mdInit (inputPath outputPath : Option String)
    (paths : Option (List (String × String))) : Except PErr Unit := do
  let _ ← resolvePath inputPath paths "input_path" "entry/massive_desc.csv"
  let _ ← resolvePath outputPath paths "output_path" "output/massive_desc.xlsx"
  typingAliasItemAssign

/-- ReativaContrato.__init__ (lines 20-63): paths come straight from
settings.get with defaults, so resolution never raises; the chained
assignment on line 59 still does. -/
def reativaInit (inputPath outputPath : Option String)
    (settings : List (String × String)) : Except PErr Unit := do
  let _ := (match inputPath with
    | some p =>
      if p != "" then p
      else (settings.lookup "input_path").getD "entry/reativa_contrato.csv"
    | none => (settings.lookup "input_path").getD "entry/reativa_contrato.csv")
  let _ := (match outputPath with
    | some p =>
      if p != "" then p
      else (settings.lookup "output_path").getD "output/reativa_contrato.xlsx"
    | none => (settings.lookup "output_path").getD "output/reativa_contrato.xlsx")
  typingAliasItemAssign

/-! ## Helper predicates and concrete environments used by the theorems -/

def isErr {α : Type} : Except PErr α → Bool
  | .error _ => true
  | .ok _ => false

/-- A remote whose contract fetch succeeds but contains no item whose
cdContrato matches the processed contract 100; equipment, negotiation
and protocol fetches all answer truthy data. -/
def envNoMatch : CancelEnv where
  getContrato := some (.arr [.obj [("cdContrato", .num 999)]])
  getContratoEquip := some (.arr [.obj [("ativo", .bool true)]])
  getNeg := some (.arr [.obj [("dtFimNegociacao", .str "2024-01-01")]])
  getProtocol := some (.arr [.obj [("cdStatus", .num 2)]])
  putContrato := fun _ => some (.obj [("ok", .bool true)])
  putContratoEquip := fun _ => some (.obj [("ok", .bool true)])
  putNeg := fun _ => some (.obj [("ok", .bool true)])
  putProtocol := fun _ => some (.obj [("ok", .bool true)])

/-- A reativa remote whose contract fetch fails while the equipment
fetch would answer data. -/
def renvContratoMissing : ReativaEnv where
  getContrato := none
  getEquip := some (.arr [.obj [("nrSerie", .num 7)]])
  putContrato := fun _ => some (.obj [("ok", .bool true)])
  putEquip := fun _ => some (.obj [("ok", .bool true)])

/-- A massive_cancel remote whose contract fetch succeeds and whose
equipment fetch fails. -/
def envStage2Missing : CancelEnv :=
  ⟨some (.arr [.obj []]), none, none, none,
   fun _ => none, fun _ => none, fun _ => none, fun _ => none⟩

/-- A massive_cancel remote where contract 100 is found with one active
equipment, three open negotiations and two open protocols; the
negotiation and protocol PUT responses are left as parameters so the
fan-out behaviour can be stated for every pattern of item failures. -/
def env7c (pn pp : Json → Option Json) : CancelEnv where
  getContrato := some (.arr [.obj [("cdContrato", .num 100)]])
  getContratoEquip := some (.arr [.obj [("ativo", .bool true)]])
  getNeg := some (.arr [.obj [("id", .num 1)], .obj [("id", .num 2)],
                        .obj [("id", .num 3)]])
  getProtocol := some (.arr [.obj [("cdStatus", .num 1)], .obj [("cdStatus", .num 1)]])
  putContrato := fun _ => some (.obj [("ok", .bool true)])
  putContratoEquip := fun _ => some (.obj [("ok", .bool true)])
  putNeg := pn
  putProtocol := pp

/-! ## Theorems for the claims -/

/-- Claim C10: for every combination of constructor arguments, the
constructors of MassiveCancel, MassiveDesc and ReativaContrato raise
before completing: the chained assignment
self.contratos = List[List[Any]] = [] item-assigns the typing alias
List, which is not writable, so none of the three services can be
constructed. -/
theorem mcInit_mdInit_reativaInit_always_raise :
    ∀ (ip op : Option String) (paths : Option (List (String × String)))
      (stg : List (String × String)),
      isErr (mcInit ip op paths) = true ∧
      isErr (mdInit ip op paths) = true ∧
      isErr (reativaInit ip op stg) = true := by
  have chain : ∀ (r1 r2 : Except PErr String),
      isErr (do let _ ← r1; let _ ← r2; typingAliasItemAssign) = true := by
    intro r1 r2
    cases r1 <;> cases r2 <;> rfl
  intro ip op paths stg
  exact ⟨chain _ _, chain _ _, rfl⟩

/-- Claim C4 fails on the code: key extraction in
IsentaContratos.process_sync does not deduplicate on the primary
(polars) reader path — a file with CONTRATO values 100, 100, 200 yields
the key 100 twice — while the pandas fallback and both of
both ColetaContratos paths do deduplicate.  The log line printed right
after the polars read still calls the count "contratos únicos". -/
theorem isentaLoadKeysPolars_keeps_duplicates :
    isentaLoadKeysPolars [100, 100, 200] = [100, 100, 200] ∧
    (isentaLoadKeysPolars [100, 100, 200]).count 100 = 2 ∧
    isentaLoadKeysPandas [100, 100, 200] = [100, 200] ∧
    coletaLoadKeysPolars [100, 100, 200] = [100, 200] ∧
    coletaLoadKeysPandas [100, 100, 200] = [100, 200] := by
  refine ⟨rfl, ?_, rfl, rfl, rfl⟩
  decide

/-- Claim C5 fails on the code: after one successful credential
exchange the cache holds a float expiry (datetime.now().timestamp() +
expires_in), and the next _get_access_token call compares
datetime.now() against that float, raising TypeError instead of
returning the cached token.  The token endpoint is reached exactly once
across the two calls, but every call after a successful one crashes. -/
theorem getAccessToken_second_call_raises :
    getAccessToken ⟨none, none⟩ 0
        (some [("access_token", .str "tok"), ("expires_in", .num 100)]) =
      (.ok (some (.str "tok")), ⟨some (.str "tok"), some (.fl 100)⟩, 1) ∧
    getAccessToken ⟨some (.str "tok"), some (.fl 100)⟩ 50
        (some [("access_token", .str "tok"), ("expires_in", .num 100)]) =
      (.error (.typeErr "< not supported between instances of datetime and float"),
       ⟨some (.str "tok"), some (.fl 100)⟩, 0) :=
  ⟨rfl, rfl⟩

/-- Claim C1 fails on the code: MassiveCancel.process_sync submits a
single task whose argument is the whole row iterator, so the task
raises AttributeError, the except branch only logs, and the result
table is empty for a one-key input (0 rows instead of 1); likewise
ColetaContratos.process_sync appends nothing for a key whose worker
raises (no Failed outcome is synthesized). -/
theorem processSync_drops_rows :
    (∀ (env : CancelEnv) (data : Int),
      mcProcessSync [⟨100, 100⟩] env data = [] ∧
      (mcUniqueKeys [⟨100, 100⟩]).length = 1) ∧
    coletaProcessSync [100] (fun _ => .error (.typeErr "TimeoutError")) = [] :=
  ⟨fun _ _ => ⟨rfl, rfl⟩, rfl⟩

/-- Claim C3 fails on the code: when the fetched contract collection is
truthy but contains no item whose cdContrato equals the key, the match
loop of MassiveCancel._process_contract leaves new_contrato unbound and
line 205 then reads it, raising UnboundLocalError instead of recording
a NotFound result; the trace shows all four GETs happened and no PUT
was issued. -/
theorem mcProcessRow_unbound_new_contrato :
    mcProcessRow ⟨100, 100⟩ envNoMatch 1700000000000 =
      (.error (.unboundLocal "new_contrato"),
       [CCall.getContrato, CCall.getContratoEquip, CCall.getNeg, CCall.getProtocol]) :=
  rfl

/-- Claim C9 fails on the code: every save_result applies the declared
schema only when the width of the FIRST row equals the column count,
otherwise it builds the DataFrame bare — dropping the declared header
and padding nothing.  The rows MassiveDesc itself builds (2 cells) never match its
4-column schema, and any short-circuit row of a different width drops
the header for the whole table. -/
theorem saveResult_drops_schema :
    saveDecision ["CONTRATO", "CD_NEGOCIACAO", "VL_NEGOCIACAO", "STATUS_ALTERACAO"]
        [["123", "Erro ao solicitar cancelamento."]] =
      .bare [["123", "Erro ao solicitar cancelamento."]] ∧
    mcSaveResult [["1", "100", "Não localizado."]] =
      .bare [["1", "100", "Não localizado."]] ∧
    mcSaveResult [["1", "100", "Atualizado", "Atualizado", "Atualizado", "Atualizado"]] =
      .withSchema mcColunas
        [["1", "100", "Atualizado", "Atualizado", "Atualizado", "Atualizado"]] ∧
    mcSaveResult [["1", "100", "Não localizado.", "---", "---", "---"],
                  ["2", "200", "Atualizado", "Atualizado"]] =
      .withSchema mcColunas
        [["1", "100", "Não localizado.", "---", "---", "---"],
         ["2", "200", "Atualizado", "Atualizado"]] :=
  ⟨rfl, rfl, rfl, rfl⟩

/-- Claim C2 as stated is false: in ReativaContrato the equipment fetch
(stage 2) is issued unconditionally before the not-found check, so when
the contract fetch (stage 1) returns NotFound the stage-2 remote call
has already been performed — the trace of the run contains it. -/
theorem reativa_prefetches_stage2 :
    reativaProcessRow ⟨1, 100, 7⟩ renvContratoMissing =
      (.ok ["1", "100", "7", "n", "---", "---"], [RCall.getContrato, RCall.getEquip]) ∧
    RCall.getEquip ∈ (reativaProcessRow ⟨1, 100, 7⟩ renvContratoMissing).2 :=
  ⟨rfl, by decide⟩

/-- Claim C2 amended: in MassiveCancel a NotFound at structural stage i
marks every later stage cell as skipped and performs none of the later
remote calls; in ReativaContrato the contract and equipment fetches are
both issued before the check, so a stage-1 NotFound does not prevent
the stage-2 fetch, though the match and update stages are skipped. -/
theorem mc_short_circuits_reativa_prefetches :
    (∀ (env : CancelEnv) (row : Row) (data : Int),
      (optTruthy env.getContrato = false →
        mcProcessRow row env data =
          (.ok (sRow row "Não localizado." "---" "---" "---"), [CCall.getContrato])) ∧
      (optTruthy env.getContrato = true → optTruthy env.getContratoEquip = false →
        mcProcessRow row env data =
          (.ok (sRow row "Localizado" "Não localizado" "---" "---"),
           [CCall.getContrato, CCall.getContratoEquip])) ∧
      (optTruthy env.getContrato = true → optTruthy env.getContratoEquip = true →
        optTruthy env.getNeg = false →
        mcProcessRow row env data =
          (.ok (sRow row "Localizado" "Localizado" "Não localizado" "---"),
           [CCall.getContrato, CCall.getContratoEquip, CCall.getNeg])) ∧
      (optTruthy env.getContrato = true → optTruthy env.getContratoEquip = true →
        optTruthy env.getNeg = true → optTruthy env.getProtocol = false →
        mcProcessRow row env data =
          (.ok (sRow row "Localizado" "Localizado" "Localizado" "Não localizado"),
           [CCall.getContrato, CCall.getContratoEquip, CCall.getNeg,
            CCall.getProtocol]))) ∧
    (∀ (env : ReativaEnv) (row : RRow),
      env.getContrato = none →
      reativaProcessRow row env =
        (.ok (rRow row "n" "---" "---"), [RCall.getContrato, RCall.getEquip])) := by
  constructor
  · intro env row data
    refine ⟨fun h1 => ?_, fun h1 h2 => ?_, fun h1 h2 h3 => ?_, fun h1 h2 h3 h4 => ?_⟩
    · simp [mcProcessRow, h1]
    · simp [mcProcessRow, h1, h2]
    · simp [mcProcessRow, h1, h2, h3]
    · simp [mcProcessRow, h1, h2, h3, h4]
  · intro env row h
    simp [reativaProcessRow, h, optTruthy]

/-- Witness for the amended C2 theorem: concrete runs for the stage-2
short-circuit of MassiveCancel and the prefetching of ReativaContrato. -/
theorem mc_short_circuits_reativa_prefetches_witness :
    optTruthy envStage2Missing.getContrato = true ∧
    optTruthy envStage2Missing.getContratoEquip = false ∧
    renvContratoMissing.getContrato = none ∧
    mcProcessRow ⟨1, 2⟩ envStage2Missing 0 =
      (.ok (sRow ⟨1, 2⟩ "Localizado" "Não localizado" "---" "---"),
       [CCall.getContrato, CCall.getContratoEquip]) ∧
    reativaProcessRow ⟨1, 2, 3⟩ renvContratoMissing =
      (.ok (rRow ⟨1, 2, 3⟩ "n" "---" "---"), [RCall.getContrato, RCall.getEquip]) := by
  refine ⟨rfl, rfl, rfl, ?_, ?_⟩
  · exact (mc_short_circuits_reativa_prefetches.1 envStage2Missing ⟨1, 2⟩ 0).2.1 rfl rfl
  · exact mc_short_circuits_reativa_prefetches.2 renvContratoMissing ⟨1, 2, 3⟩ rfl

/-- Claim C8 as stated is false: a 204 response makes _make_request
return exactly the empty JSON object (not a sentinel distinct from it),
and since the empty dict is falsy the caller in MassiveDesc classifies
the successful 204 PUT as a cancellation error. -/
theorem makeRequest_204_is_empty_object :
    makeRequest "http" "http://remote/desc/123" [204] (fun s => .num (Int.ofNat s)) =
      (some (.obj []), 1) ∧
    mdProcessContract 123 (some (.obj [])) =
      .ok (some [.num 123, .str "Erro ao solicitar cancelamento."]) :=
  ⟨rfl, rfl⟩

/-- Claim C8 amended: for every URL a 204 response yields the empty
JSON object — distinct from the None used for failed requests, but
identical to an empty object and falsy — so callers that test the
result for truthiness (MassiveDesc among them) classify a 204 success
as a failure. -/
theorem makeRequest_204_empty_object_falsy :
    (∀ (u : String) (bodyOf : Nat → Json),
      makeRequest "http" u [204] bodyOf = (some (.obj []), 1)) ∧
    (some (Json.obj []) ≠ (none : Option Json)) ∧
    optTruthy (some (.obj [])) = false ∧
    (∀ c : Int, mdProcessContract c (some (.obj [])) =
      .ok (some [.num c, .str "Erro ao solicitar cancelamento."])) := by
  refine ⟨?_, by simp, rfl, fun c => rfl⟩
  intro u bodyOf
  have hs : ∀ b, sendWithRetry b [204] = (.ok 204, 1) := by
    intro b
    cases b <;> rfl
  unfold makeRequest
  rw [hs]
  rfl

/-- When every status a remote answers is forcelisted, the transport
ends in an error whatever the retry budget (either the budget runs out
or the remote does). -/
theorem sendWithRetry_all_forcelisted :
    ∀ (rs : List Nat) (b : Nat), (∀ s ∈ rs, s ∈ statusForcelist) →
      ∃ e, (sendWithRetry b rs).1 = Except.error e := by
  intro rs
  induction rs with
  | nil => exact fun b _ => ⟨.connectionFailed, by simp only [sendWithRetry]⟩
  | cons s rest ih =>
    intro b hall
    have hs : s ∈ statusForcelist := hall s (List.mem_cons_self s rest)
    cases b with
    | zero => exact ⟨.retriesExhausted, by simp only [sendWithRetry, if_pos hs]⟩
    | succ b' =>
      obtain ⟨e, he⟩ := ih b' fun t ht => hall t (List.mem_cons_of_mem s ht)
      exact ⟨e, by simp only [sendWithRetry, if_pos hs]; exact he⟩

/-- Claim C6 as stated is false: MassiveCancel mounts its retry adapter
only on the "http://" scheme, so a request to an https URL runs with
the session default of zero retries — a remote answering 503, 503, 200
produces a failed request (None, surfacing as the Failed cell of the stage)
after a single attempt. -/
theorem makeRequest_https_503_not_retried :
    makeRequest "http" "https://remote/api" [503, 503, 200] (fun _ => .null) =
      (none, 1) ∧
    makeRequest "https" "https://remote/api" [503, 503, 200] (fun _ => .null) =
      (some .null, 3) :=
  ⟨rfl, rfl⟩

/-- Claim C6 amended: for requests whose URL scheme matches the mounted
adapter (http in MassiveCancel, https in ColetaContratos), a
forcelisted status (500/502/503/504) is retried up to the budget of 3
with backoff — 503, 503, 200 succeeds on the third attempt — while a
remote answering only forcelisted statuses yields a failure, and a 4xx
response is returned after exactly one attempt, never retried. -/
theorem makeRequest_retry_semantics :
    ∀ (u v : String) (bodyOf : Nat → Json),
      u.take 7 = "http://" → v.take 8 = "https://" →
      makeRequest "http" u [503, 503, 200] bodyOf = (some (bodyOf 200), 3) ∧
      makeRequest "https" v [503, 503, 200] bodyOf = (some (bodyOf 200), 3) ∧
      (∀ rs : List Nat, (∀ s ∈ rs, s ∈ statusForcelist) →
        (makeRequest "http" u rs bodyOf).1 = none) ∧
      (∀ (s : Nat) (rest : List Nat), 400 ≤ s → s < 500 →
        makeRequest "http" u (s :: rest) bodyOf = (none, 1)) := by
  intro u v bodyOf hu hv
  have hbu : retryBudget "http" u = 3 := by simp [retryBudget, hu]
  have hbv : retryBudget "https" v = 3 := by simp [retryBudget, hv]
  refine ⟨?_, ?_, ?_, ?_⟩
  · unfold makeRequest
    rw [hbu]
    rfl
  · unfold makeRequest
    rw [hbv]
    rfl
  · intro rs hall
    obtain ⟨e, he⟩ := sendWithRetry_all_forcelisted rs 3 hall
    unfold makeRequest
    rw [hbu]
    rcases hsr : sendWithRetry 3 rs with ⟨r1, att⟩
    rw [hsr] at he
    simp only at he
    rw [he]
  · intro s rest h4 h5
    have hnot : s ∉ statusForcelist := by
      simp only [statusForcelist, List.mem_cons, List.not_mem_nil, or_false,
        not_or]
      omega
    have h1 : sendWithRetry 3 (s :: rest) = (.ok s, 1) := by
      simp only [sendWithRetry, if_neg hnot]
    unfold makeRequest
    rw [hbu, h1]
    simp [h4]

/-- Witness for the amended C6 theorem at concrete URLs and statuses. -/
theorem makeRequest_retry_semantics_witness :
    ("http://api/x".take 7 = "http://") ∧ ("https://api/y".take 8 = "https://") ∧
    makeRequest "http" "http://api/x" [503, 503, 200] (fun _ => .null) =
      (some .null, 3) ∧
    (makeRequest "http" "http://api/x" [503, 503, 503, 503] (fun _ => .null)).1 =
      none ∧
    makeRequest "http" "http://api/x" [404] (fun _ => .null) = (none, 1) := by
  have h := makeRequest_retry_semantics "http://api/x" "https://api/y"
    (fun _ => .null) rfl rfl
  exact ⟨rfl, rfl, h.1, h.2.2.1 [503, 503, 503, 503] (by decide),
    h.2.2.2 404 [] (by decide) (by decide)⟩

/-- Counting a constant-mapped list. -/
theorem count_map_self {α β : Type} [BEq α] [LawfulBEq α] (l : List β) (a : α) :
    (l.map (fun _ => a)).count a = l.length := by
  induction l with
  | nil => rfl
  | cons x xs ih => simp [List.count_cons, ih]

/-- The isenta fan-out loop on a list of dict items issues exactly one
PUT per item whatever each PUT answers, and never raises. -/
theorem isentaLoop_objects :
    ∀ (c : Int) (valor : Json) (putResp : Nat → Option Json)
      (items : List (List (String × Json))) (i : Nat),
      (isentaLoop c valor putResp i (items.map Json.obj)).2 =
        items.map (fun _ => ICall.putNeg) ∧
      isErr (isentaLoop c valor putResp i (items.map Json.obj)).1 = false := by
  intro c valor putResp items
  induction items with
  | nil => exact fun i => ⟨rfl, rfl⟩
  | cons fs rest ih =>
    intro i
    have iht := (ih (i + 1)).1
    have ihe := (ih (i + 1)).2
    simp only [List.map_cons, isentaLoop, Json.pySet, Json.pyGet]
    rcases h : isentaLoop c valor putResp (i + 1) (rest.map Json.obj) with ⟨t1, t2⟩
    rw [h] at iht ihe
    simp only at iht ihe
    cases t1 with
    | error e => simp [isErr] at ihe
    | ok tl =>
      exact ⟨by rw [iht], rfl⟩

/-- Claim C7: fan-out stages attempt every item independently.  In
IsentaContratos the loop issues one PUT per fetched negotiation for
every pattern of per-item responses (a failed item adds a failure row
but never stops the loop or raises); in MassiveCancel, with three open
negotiations and two open protocols, every fan-out PUT is attempted and
the pipeline still ends in the full success row whatever the
negotiation and protocol PUTs answer. -/
theorem fanout_items_independent :
    (∀ (c : Int) (valor : Json) (items : List (List (String × Json)))
       (putResp : Nat → Option Json),
      ((isentaProcessContract c valor (some (.arr (items.map Json.obj))) putResp).2).count
          ICall.putNeg = items.length ∧
      isErr (isentaProcessContract c valor (some (.arr (items.map Json.obj)))
          putResp).1 = false) ∧
    (∀ pn pp : Json → Option Json,
      mcProcessRow ⟨1, 100⟩ (env7c pn pp) 5 =
        (.ok (sRow ⟨1, 100⟩ "Atualizado" "Atualizado" "Atualizado" "Atualizado"),
         [CCall.getContrato, CCall.getContratoEquip, CCall.getNeg, CCall.getProtocol,
          CCall.putContrato, CCall.putContratoEquip,
          CCall.putNeg, CCall.putNeg, CCall.putNeg,
          CCall.putProtocol, CCall.putProtocol]) ∧
      ((mcProcessRow ⟨1, 100⟩ (env7c pn pp) 5).2).count CCall.putNeg = 3 ∧
      ((mcProcessRow ⟨1, 100⟩ (env7c pn pp) 5).2).count CCall.putProtocol = 2) := by
  constructor
  · intro c valor items putResp
    have hl := isentaLoop_objects c valor putResp items 0
    simp only [isentaProcessContract, pyIterOpt, Json.pyIter]
    rcases h : isentaLoop c valor putResp 0 (items.map Json.obj) with ⟨t1, t2⟩
    rw [h] at hl
    simp only at hl
    cases t1 with
    | error e => simp [isErr] at hl
    | ok rows =>
      refine ⟨?_, rfl⟩
      rw [hl.1]
      simp [List.count_cons, count_map_self]
  · intro pn pp
    exact ⟨rfl, rfl, rfl⟩

end ScriptsAjustes
